import Mathlib

/-!
# Verification of the resume-chat relay (Next.js API route + zod schemas + chat UI)

Shallow embedding of:
- `src/unnamed/part_003` (zod schemas: `chatMessageSchema`, `chatRequestSchema`,
  `chatResponseSchema`),
- `src/web/app/api/chat/route.ts` (the `POST` relay handler),
- `src/unnamed/part_000` (the `ChatPanel` React component's conversation state).

JSON values are modelled by an inductive `Json`; JavaScript truthiness and the
`||` chains of the source are modelled explicitly; the upstream `fetch` is a
parameter of the handler, and the handler also returns the list of network
calls it issued, so "no upstream call" is the empty trace.
-/

namespace ResumeChat

/-- A JSON value (the decoded bodies flowing through the relay). -/
inductive Json where
  | null : Json
  | bool : Bool → Json
  | num  : Int → Json
  | str  : String → Json
  | arr  : List Json → Json
  | obj  : List (String × Json) → Json
  deriving Repr

/-- Message roles, from the zod enum `["user", "assistant", "system"]`. -/
inductive Role where
  | user
  | assistant
  | system
  deriving DecidableEq, Repr

def Role.toString : Role → String
  | .user => "user"
  | .assistant => "assistant"
  | .system => "system"

/-- `ChatMessage` from `src/unnamed/part_003`: role enum + content string. -/
structure ChatMessage where
  role : Role
  content : String
  deriving DecidableEq, Repr

/-- `ChatRequest` from `src/unnamed/part_003`: `message` string, optional history. -/
structure ChatRequest where
  message : String
  history : Option (List ChatMessage)
  deriving DecidableEq, Repr

/-- `ChatResponse` from `src/unnamed/part_003`: `reply` string, `handled` boolean. -/
structure ChatResponse where
  reply : String
  handled : Bool
  deriving DecidableEq, Repr

/-- A path step inside a zod issue (object key or array index). -/
inductive PathItem where
  | key (k : String)
  | index (i : Nat)
  deriving DecidableEq, Repr

/-- A zod validation issue: path of the offending field plus a message. -/
structure Issue where
  path : List PathItem
  message : String
  deriving DecidableEq, Repr

/-- Field lookup on a JSON object (`undefined`, i.e. `none`, elsewhere). -/
def Json.getField : Json → String → Option Json
  | .obj fields, k => fields.lookup k
  | _, _ => none

/-- JavaScript truthiness of a JSON value. -/
def truthy : Json → Bool
  | .null => false
  | .bool b => b
  | .num n => !(n == 0)
  | .str s => !(s == "")
  | .arr _ => true
  | .obj _ => true

/-- Parse of the `role` field against `z.enum(["user", "assistant", "system"])`. -/
def parseRole (j : Option Json) (path : List PathItem) : Except (List Issue) Role :=
  match j with
  | some (.str "user") => .ok .user
  | some (.str "assistant") => .ok .assistant
  | some (.str "system") => .ok .system
  | some _ => .error [⟨path, "Invalid enum value"⟩]
  | none => .error [⟨path, "Required"⟩]

/-- Parse of the `content` field against `z.string().min(1, "Message cannot be empty")`. -/
def parseContent (j : Option Json) (path : List PathItem) : Except (List Issue) String :=
  match j with
  | some (.str s) => if s == "" then .error [⟨path, "Message cannot be empty"⟩] else .ok s
  | some _ => .error [⟨path, "Expected string"⟩]
  | none => .error [⟨path, "Required"⟩]

/-- Combine two field-parse results, collecting issues from both (zod reports
every violated field, not just the first). -/
def combine {α β : Type} (a : Except (List Issue) α) (b : Except (List Issue) β) :
    Except (List Issue) (α × β) :=
  match a, b with
  | .ok x, .ok y => .ok (x, y)
  | .error e₁, .error e₂ => .error (e₁ ++ e₂)
  | .error e₁, .ok _ => .error e₁
  | .ok _, .error e₂ => .error e₂

/-- `chatMessageSchema` applied at a given path: an object with a valid `role`
and a non-empty string `content`; unknown keys are ignored (zod strips them). -/
def chatMessageSchemaParse (j : Json) (path : List PathItem) :
    Except (List Issue) ChatMessage :=
  match j with
  | .obj _ =>
    (combine (parseRole (j.getField "role") (path ++ [.key "role"]))
             (parseContent (j.getField "content") (path ++ [.key "content"]))).map
      fun (r, c) => ⟨r, c⟩
  | _ => .error [⟨path, "Expected object"⟩]

/-- Elementwise parse of a `history` array with positional paths, collecting
the issues of every offending element. -/
def parseHistoryItems (items : List Json) (path : List PathItem) (i : Nat) :
    Except (List Issue) (List ChatMessage) :=
  match items with
  | [] => .ok []
  | j :: rest =>
    (combine (chatMessageSchemaParse j (path ++ [.index i]))
             (parseHistoryItems rest path (i + 1))).map
      fun (m, ms) => m :: ms

/-- `chatRequestSchema.safeParse`: `message` must be a string (no emptiness
constraint in the source schema), `history` is an optional array of messages. -/
def chatRequestSchema_safeParse (j : Json) : Except (List Issue) ChatRequest :=
  match j with
  | .obj _ =>
    let messageRes : Except (List Issue) String :=
      match j.getField "message" with
      | some (.str s) => .ok s
      | some _ => .error [⟨[.key "message"], "Expected string"⟩]
      | none => .error [⟨[.key "message"], "Required"⟩]
    let historyRes : Except (List Issue) (Option (List ChatMessage)) :=
      match j.getField "history" with
      | none => .ok none
      | some (.arr items) => (parseHistoryItems items [.key "history"] 0).map some
      | some _ => .error [⟨[.key "history"], "Expected array"⟩]
    (combine messageRes historyRes).map fun (m, h) => ⟨m, h⟩
  | _ => .error [⟨[], "Expected object"⟩]

/-- `chatResponseSchema.safeParse`: `reply` string, `handled` boolean. -/
def chatResponseSchema_safeParse (j : Json) : Except (List Issue) ChatResponse :=
  match j with
  | .obj _ =>
    let replyRes : Except (List Issue) String :=
      match j.getField "reply" with
      | some (.str s) => .ok s
      | some _ => .error [⟨[.key "reply"], "Expected string"⟩]
      | none => .error [⟨[.key "reply"], "Required"⟩]
    let handledRes : Except (List Issue) Bool :=
      match j.getField "handled" with
      | some (.bool b) => .ok b
      | some _ => .error [⟨[.key "handled"], "Expected boolean"⟩]
      | none => .error [⟨[.key "handled"], "Required"⟩]
    (combine replyRes handledRes).map fun (r, h) => ⟨r, h⟩
  | _ => .error [⟨[], "Expected object"⟩]

/-- `JSON.stringify` of a parsed chat message (the zod output keeps exactly
the schema's keys). -/
def ChatMessage.toJson (m : ChatMessage) : Json :=
  .obj [("role", .str m.role.toString), ("content", .str m.content)]

/-- `JSON.stringify(parsed.data)`: the zod output object holds only the
schema's keys; an absent optional `history` stays absent. -/
def ChatRequest.toJson (r : ChatRequest) : Json :=
  match r.history with
  | none => .obj [("message", .str r.message)]
  | some h => .obj [("message", .str r.message), ("history", .arr (h.map ChatMessage.toJson))]

/-- Serialization of a validated `ChatResponse` (the body of the relay's 200). -/
def ChatResponse.toJson (r : ChatResponse) : Json :=
  .obj [("reply", .str r.reply), ("handled", .bool r.handled)]

/-- Serialization of a zod issue path step. -/
def PathItem.toJson : PathItem → Json
  | .key k => .str k
  | .index i => .num i

/-- Serialization of a zod issue. -/
def Issue.toJson (i : Issue) : Json :=
  .obj [("path", .arr (i.path.map PathItem.toJson)), ("message", .str i.message)]

/-- Serialization of a list of zod issues (the `issues` field of the 400 body). -/
def issuesToJson (issues : List Issue) : Json :=
  .arr (issues.map Issue.toJson)

/-- Rendering of issues into the thrown `ZodError`'s `.message` string. -/
def issuesRender (issues : List Issue) : String :=
  String.intercalate "; " (issues.map Issue.message)

/-- A JavaScript exception as observed by the route's `catch` (its `name`
and `message` properties). -/
structure JsError where
  name : String
  message : String
  deriving DecidableEq, Repr

/-- The upstream `fetch` response as consumed by the route: status code,
`content-type` header (`""` when absent, matching `|| ""` in the source),
the result of `res.json().catch(() => null)` (`none` = parse failure = JS
null), and the result of `res.text()`. -/
structure UpstreamResp where
  status : Nat
  contentType : String
  jsonBody : Option Json
  textBody : String
  deriving Repr

/-- `res.ok`: status in the 2xx range. -/
def UpstreamResp.isOk (r : UpstreamResp) : Bool :=
  200 ≤ r.status && r.status < 300

/-- Whether `needle` occurs as a contiguous run inside `hay`. -/
def hasSub (needle : List Char) : List Char → Bool
  | [] => needle.isEmpty
  | c :: rest => needle.isPrefixOf (c :: rest) || hasSub needle rest

/-- `haystack.includes(needle)` on strings. -/
def strIncludes (haystack needle : String) : Bool :=
  hasSub needle.data haystack.data

/-- The response the route hands back: HTTP status, JSON (or text) body, and
an explicit content-type for the non-JSON passthrough branch. -/
structure RouteResponse where
  status : Nat
  body : Json
  contentType : Option String
  deriving Repr

/-- One outbound network call issued by the handler (`fetch(url, {body})`). -/
structure NetCall where
  url : String
  body : Json
  deriving Repr

/-- Truthiness of the module-level `API_URL` (`process.env.API_URL`):
`undefined` or the empty string fail the `if (!API_URL)` guard. -/
def envTruthy : Option String → Bool
  | none => false
  | some s => !(s == "")

/-- Lines 43-46 of the route: `(payload && payload.error) || (payload &&
payload.message) || ("Upstream error " + status)` — a JS `||` chain, so a
present-but-falsy field (like the empty string) falls through. -/
def upstreamErrorMessage (payload : Json) (status : Nat) : Json :=
  let pick (k : String) : Option Json :=
    if truthy payload then
      match payload.getField k with
      | some v => if truthy v then some v else none
      | none => none
    else none
  match pick "error" with
  | some v => v
  | none =>
    match pick "message" with
    | some v => v
    | none => .str ("Upstream error " ++ toString status)

/-- The route's `catch` block (lines 61-75): abort and timeout map to the 504
envelope, everything else to the 500 envelope with diagnostic detail. -/
def catchHandler (e : JsError) : RouteResponse :=
  if e.name == "AbortError" || e.name == "TimeoutError" then
    ⟨504, .obj [("error", .str "Upstream request timed out")], none⟩
  else
    ⟨500, .obj [("error", .str "[API_CHAT] Unexpected error"),
                ("detail", .str e.message)], none⟩

/-- Lines 36-60 of the route, applied to the outcome of the `fetch` at line 28
(a rejection lands in the `catch`, line 61): content-type sniffing, payload
extraction (`res.json().catch(() => null)` / `res.text()`), the non-2xx error
passthrough, the `chatResponseSchema.parse` re-validation (whose `ZodError`
is caught by the same `catch`), and the non-JSON text passthrough. -/
def handleUpstream (fetchOutcome : Except JsError UpstreamResp) : RouteResponse :=
  match fetchOutcome with
  | .error e => catchHandler e
  | .ok res =>
    let isJson := strIncludes res.contentType "application/json"
    let payload : Json :=
      if isJson then
        match res.jsonBody with
        | some j => j
        | none => .null
      else .str res.textBody
    if !res.isOk then
      ⟨res.status, .obj [("error", upstreamErrorMessage payload res.status)], none⟩
    else if isJson then
      match chatResponseSchema_safeParse payload with
      | .ok validated => ⟨200, validated.toJson, none⟩
      | .error issues => catchHandler ⟨"ZodError", issuesRender issues⟩
    else
      ⟨200, .str res.textBody,
        some (if res.contentType == "" then "text/plain" else res.contentType)⟩

/-- The `POST` handler of `src/web/app/api/chat/route.ts`.

Inputs stand for the ambient effects: `apiUrl` is `process.env.API_URL`,
`reqJson` the outcome of `await req.json()` (an exception lands in the
`catch`), and `fetchOutcome` the outcome of the single upstream `fetch`.
The second component of the result is the trace of outbound network calls,
so the empty list means no upstream call was issued. -/
def POST (apiUrl : Option String) (reqJson : Except JsError Json)
    (fetchOutcome : Except JsError UpstreamResp) :
    RouteResponse × List NetCall :=
  if !(envTruthy apiUrl) then
    (⟨500, .obj [("error", .str "API_URL not found")], none⟩, [])
  else
    match reqJson with
    | .error e => (catchHandler e, [])
    | .ok data =>
      match chatRequestSchema_safeParse data with
      | .error issues =>
        (⟨400, .obj [("error", .str "Invalid request data"),
                     ("issues", issuesToJson issues)], none⟩, [])
      | .ok parsed =>
        (handleUpstream fetchOutcome,
         [⟨(apiUrl.getD "") ++ "/chat", parsed.toJson⟩])

/-- The fixed upstream timeout of line 26: `AbortSignal.timeout(20_000)`. -/
def timeoutMs : Nat := 20000

/-- `AbortSignal.any`: the composite signal fires at the earliest firing time
of its sources (`none` = a source that never fires). -/
def anySignalFire : Option Nat → Option Nat → Option Nat
  | none, t => t
  | some a, none => some a
  | some a, some b => some (min a b)

/-- A `fetch` guarded by the composed signal of line 26: if the composite
signal (caller's `req.signal` composed with the 20 s timeout) fires strictly
before the upstream responds, the call is aborted and `fetch` rejects with
`AbortError` (caller's signal first, it is listed first in the array) or
`TimeoutError` (the timer first); otherwise the response arrives. -/
def fetchWithSignals (clientAbort : Option Nat) (respTime : Nat)
    (resp : UpstreamResp) : Except JsError UpstreamResp :=
  match anySignalFire clientAbort (some timeoutMs) with
  | some t =>
    if t < respTime then
      .error ⟨(match clientAbort with
               | some c => if c ≤ timeoutMs then "AbortError" else "TimeoutError"
               | none => "TimeoutError"),
              "The operation was aborted"⟩
    else .ok resp
  | none => .ok resp

/-! ## ChatPanel (`src/unnamed/part_000`): UI-held conversation state -/

/-- JavaScript `String.prototype.trim`: strip whitespace from both ends. -/
def jsTrim (s : String) : String :=
  String.mk (((s.data.dropWhile Char.isWhitespace).reverse.dropWhile
    Char.isWhitespace).reverse)

/-- The initial `useState` value: a single system message. -/
def initialMessages : List ChatMessage :=
  [⟨.system, "You are a helpful assistant."⟩]

/-- The `ChatPanel` component's state hooks. -/
structure ChatPanelState where
  messages : List ChatMessage
  input : String
  loading : Bool
  error : Option String
  deriving DecidableEq, Repr

/-- The state created on mount. -/
def initState : ChatPanelState :=
  ⟨initialMessages, "", false, none⟩

/-- Typing in the input box (`setInput`). -/
def setInput (s : ChatPanelState) (v : String) : ChatPanelState :=
  { s with input := v }

/-- The synchronous part of `sendMessage` up to the `fetch`: trims the input,
bails out when empty or already loading, otherwise appends the user message,
clears input/error, sets loading, and returns the request it is about to post
(`message` = trimmed input, `history` = prior messages minus system role). -/
def sendMessageStart (s : ChatPanelState) :
    ChatPanelState × Option (String × List ChatMessage) :=
  let trimmed := jsTrim s.input
  if trimmed == "" || s.loading then (s, none)
  else
    let userMsg : ChatMessage := ⟨.user, trimmed⟩
    let history := s.messages.filter (fun m => !(m.role == .system))
    ({ s with
        messages := s.messages ++ [userMsg],
        input := "",
        error := none,
        loading := true },
     some (trimmed, history))

/-- Completion of `sendMessage` on a 200 reply: appends the assistant message
and clears loading (the `finally`). -/
def sendMessageSuccess (s : ChatPanelState) (reply : String) : ChatPanelState :=
  { s with messages := s.messages ++ [⟨.assistant, reply⟩], loading := false }

/-- Completion of `sendMessage` on a non-OK response or thrown error: sets the
error banner and clears loading; messages are untouched. -/
def sendMessageFailure (s : ChatPanelState) (msg : String) : ChatPanelState :=
  { s with error := some msg, loading := false }

/-- `resetChat`: restores the initial message list and clears error and input. -/
def resetChat (s : ChatPanelState) : ChatPanelState :=
  { s with messages := initialMessages, error := none, input := "" }

/-- The states the `ChatPanel` can reach from mount through its event handlers. -/
inductive Reachable : ChatPanelState → Prop where
  | init : Reachable initState
  | typing (s : ChatPanelState) (v : String) : Reachable s → Reachable (setInput s v)
  | send (s : ChatPanelState) : Reachable s → Reachable (sendMessageStart s).1
  | reply (s : ChatPanelState) (r : String) :
      Reachable s → Reachable (sendMessageSuccess s r)
  | fail (s : ChatPanelState) (m : String) :
      Reachable s → Reachable (sendMessageFailure s m)
  | reset (s : ChatPanelState) : Reachable s → Reachable (resetChat s)

/-! ## Helper observations on route responses -/

/-- The `error` field of a response body, when it is a string. -/
def RouteResponse.errorText (r : RouteResponse) : Option String :=
  match r.body.getField "error" with
  | some (.str s) => some s
  | _ => none

/-- The `detail` field of a response body. -/
def RouteResponse.detail (r : RouteResponse) : Option Json :=
  r.body.getField "detail"

/-- The top-level keys of a JSON object. -/
def Json.keys : Json → List String
  | .obj fields => fields.map Prod.fst
  | _ => []

/-! ## Shared lemmas -/

/-- Once the config guard and validation pass, `POST` issues exactly one
upstream call, with `JSON.stringify(parsed.data)` as its body, and the
response is the post-fetch section applied to the fetch outcome. -/
theorem POST_parsed (u : String) (hu : (u == "") = false) (data : Json)
    (r : ChatRequest) (hp : chatRequestSchema_safeParse data = .ok r)
    (f : Except JsError UpstreamResp) :
    POST (some u) (.ok data) f = (handleUpstream f, [⟨u ++ "/chat", r.toJson⟩]) := by
  simp [POST, envTruthy, hu, hp]

/-! ## C1 — empty top-level `message` -/

/-- C1 (counterexample): the claim "a request whose top-level `message` is the
empty string is rejected with the 400 envelope and no upstream call is issued"
is false on the code: `chatRequestSchema` constrains `message` only with
`z.string()` (no `.min(1)`), so `{"message": ""}` validates successfully, the
handler answers 200, and the upstream call is issued (trace length 1). -/
theorem C1_counterexample :
    chatRequestSchema_safeParse (Json.obj [("message", Json.str "")]) =
      .ok ⟨"", none⟩ ∧
    (POST (some "http://api") (.ok (Json.obj [("message", Json.str "")]))
      (.ok ⟨200, "application/json",
        some (Json.obj [("reply", Json.str "ok"), ("handled", Json.bool true)]),
        ""⟩)).1.status = 200 ∧
    (POST (some "http://api") (.ok (Json.obj [("message", Json.str "")]))
      (.ok ⟨200, "application/json",
        some (Json.obj [("reply", Json.str "ok"), ("handled", Json.bool true)]),
        ""⟩)).2.length = 1 :=
  ⟨rfl, rfl, rfl⟩

/-- C1 (amended): a request whose top-level `message` is the empty string is
accepted by the relay's validation (the schema requires `message` only to be a
string), and the upstream call IS issued — for any configured base URL and any
fetch outcome, the handler posts `{"message": ""}` to `<base>/chat`. -/
theorem C1_empty_message_forwarded (u : String) (hu : (u == "") = false)
    (f : Except JsError UpstreamResp) :
    chatRequestSchema_safeParse (Json.obj [("message", Json.str "")]) =
      .ok ⟨"", none⟩ ∧
    POST (some u) (.ok (Json.obj [("message", Json.str "")])) f =
      (handleUpstream f, [⟨u ++ "/chat", Json.obj [("message", Json.str "")]⟩]) :=
  ⟨rfl, POST_parsed u hu (Json.obj [("message", Json.str "")]) ⟨"", none⟩ rfl f⟩

/-- Witness for `C1_empty_message_forwarded` at a concrete URL and fetch outcome. -/
theorem C1_empty_message_forwarded_witness :
    chatRequestSchema_safeParse (Json.obj [("message", Json.str "")]) =
      .ok ⟨"", none⟩ ∧
    POST (some "http://api") (.ok (Json.obj [("message", Json.str "")]))
        (.error ⟨"TypeError", "fetch failed"⟩) =
      (handleUpstream (.error ⟨"TypeError", "fetch failed"⟩),
       [⟨"http://api" ++ "/chat", Json.obj [("message", Json.str "")]⟩]) :=
  C1_empty_message_forwarded "http://api" rfl (.error ⟨"TypeError", "fetch failed"⟩)

/-! ## C2 — 500 envelopes -/

/-- C2 (counterexample): the claim "connectivity/configuration/unexpected
failures all answer `{ error: "Unexpected error", detail: message }`" is false
on the code: a missing `API_URL` answers `{ error: "API_URL not found" }` with
no `detail` at all, and the generic catch uses the string
`"[API_CHAT] Unexpected error"`, not `"Unexpected error"`. -/
theorem C2_counterexample :
    (POST none (.ok (Json.obj [("message", Json.str "q")]))
      (.error ⟨"TypeError", "fetch failed"⟩)).1.errorText =
        some "API_URL not found" ∧
    (POST none (.ok (Json.obj [("message", Json.str "q")]))
      (.error ⟨"TypeError", "fetch failed"⟩)).1.detail = none ∧
    (POST (some "u") (.ok (Json.obj [("message", Json.str "q")]))
      (.error ⟨"TypeError", "fetch failed"⟩)).1.errorText =
        some "[API_CHAT] Unexpected error" ∧
    some "[API_CHAT] Unexpected error" ≠ some "Unexpected error" ∧
    some "API_URL not found" ≠ some "Unexpected error" :=
  ⟨rfl, rfl, rfl, by decide, by decide⟩

/-- C2 (amended): a connectivity failure or any unexpected exception thrown by
the fetch (any error whose name is neither `AbortError` nor `TimeoutError`)
yields `{ error: "[API_CHAT] Unexpected error", detail: message }` with HTTP
500; a missing (or empty) upstream base URL instead yields
`{ error: "API_URL not found" }` with HTTP 500 and no upstream call. -/
theorem C2_error_envelopes :
    (∀ u, (u == "") = false → ∀ data r,
      chatRequestSchema_safeParse data = .ok r → ∀ e : JsError,
      (e.name == "AbortError") = false → (e.name == "TimeoutError") = false →
      (POST (some u) (.ok data) (.error e)).1 =
        ⟨500, .obj [("error", .str "[API_CHAT] Unexpected error"),
                    ("detail", .str e.message)], none⟩) ∧
    (∀ apiUrl, envTruthy apiUrl = false → ∀ rq f,
      POST apiUrl rq f =
        (⟨500, .obj [("error", .str "API_URL not found")], none⟩, [])) := by
  constructor
  · intro u hu data r hp e h1 h2
    rw [POST_parsed u hu data r hp]
    simp [handleUpstream, catchHandler, h1, h2]
  · intro apiUrl h rq f
    simp [POST, h]

/-- Witness for `C2_error_envelopes` at concrete inputs. -/
theorem C2_error_envelopes_witness :
    (POST (some "u") (.ok (Json.obj [("message", Json.str "q")]))
      (.error ⟨"TypeError", "fetch failed"⟩)).1 =
      ⟨500, .obj [("error", .str "[API_CHAT] Unexpected error"),
                  ("detail", .str "fetch failed")], none⟩ ∧
    POST none (.ok (Json.obj [("message", Json.str "q")]))
        (.error ⟨"TypeError", "fetch failed"⟩) =
      (⟨500, .obj [("error", .str "API_URL not found")], none⟩, []) :=
  ⟨C2_error_envelopes.1 "u" rfl (Json.obj [("message", Json.str "q")]) ⟨"q", none⟩ rfl
      ⟨"TypeError", "fetch failed"⟩ rfl rfl,
   C2_error_envelopes.2 none rfl _ _⟩

/-! ## C3 — non-2xx upstream passthrough -/

/-- C3 (counterexample): the claim "m is the value of the JSON body's `error`
field if present" is false on the code when that field is present but falsy:
for upstream 503 with body `{"error": ""}` the `||` chain skips the empty
string and the relay answers `{ error: "Upstream error 503" }`, not
`{ error: "" }`. -/
theorem C3_counterexample :
    (POST (some "u") (.ok (Json.obj [("message", Json.str "q")]))
      (.ok ⟨503, "application/json", some (Json.obj [("error", Json.str "")]),
        ""⟩)).1.status = 503 ∧
    (POST (some "u") (.ok (Json.obj [("message", Json.str "q")]))
      (.ok ⟨503, "application/json", some (Json.obj [("error", Json.str "")]),
        ""⟩)).1.errorText = some "Upstream error 503" ∧
    some "Upstream error 503" ≠ some "" :=
  ⟨rfl, rfl, by decide⟩

/-- C3 (amended): on a non-2xx upstream JSON response the relay answers
`{ error: m }` with the upstream status code, where `m` is the `error` field
if present and truthy, else the `message` field if present and truthy, else
the synthesized `"Upstream error <status>"` (a present-but-falsy field, such
as the empty string, falls through); for upstream 503 with
`{ error: "overloaded" }` the relay answers `{ error: "overloaded" }` with
status 503. -/
theorem C3_upstream_error_envelope :
    (∀ u, (u == "") = false → ∀ data r,
      chatRequestSchema_safeParse data = .ok r → ∀ res : UpstreamResp,
      res.isOk = false →
      strIncludes res.contentType "application/json" = true →
      ∀ payload, res.jsonBody = some payload →
      (POST (some u) (.ok data) (.ok res)).1 =
        ⟨res.status, .obj [("error", upstreamErrorMessage payload res.status)],
         none⟩) ∧
    (∀ payload status v, payload.getField "error" = some v → truthy v = true →
      upstreamErrorMessage payload status = v) ∧
    (∀ payload status v,
      (∀ w, payload.getField "error" = some w → truthy w = false) →
      payload.getField "message" = some v → truthy v = true →
      upstreamErrorMessage payload status = v) ∧
    (∀ payload status,
      (∀ w, payload.getField "error" = some w → truthy w = false) →
      (∀ w, payload.getField "message" = some w → truthy w = false) →
      upstreamErrorMessage payload status =
        .str ("Upstream error " ++ toString status)) ∧
    ((POST (some "u") (.ok (Json.obj [("message", Json.str "q")]))
      (.ok ⟨503, "application/json",
        some (Json.obj [("error", Json.str "overloaded")]), ""⟩)).1 =
      ⟨503, .obj [("error", Json.str "overloaded")], none⟩) := by
  refine ⟨?_, ?_, ?_, ?_, rfl⟩
  · intro u hu data r hp res hok hct payload hjson
    rw [POST_parsed u hu data r hp]
    simp [handleUpstream, hct, hjson, hok]
  · intro payload status v hv htr
    have hobj : truthy payload = true := by
      cases payload <;> simp [Json.getField, truthy] at hv ⊢
    simp [upstreamErrorMessage, hobj, hv, htr]
  · intro payload status v herr hv htr
    have hobj : truthy payload = true := by
      cases payload <;> simp [Json.getField, truthy] at hv ⊢
    rcases he : payload.getField "error" with _ | w
    · simp [upstreamErrorMessage, hobj, he, hv, htr]
    · have := herr w he
      simp [upstreamErrorMessage, hobj, he, this, hv, htr]
  · intro payload status herr hmsg
    by_cases hobj : truthy payload = true
    · rcases he : payload.getField "error" with _ | w
      · rcases hm : payload.getField "message" with _ | w2
        · simp [upstreamErrorMessage, hobj, he, hm]
        · simp [upstreamErrorMessage, hobj, he, hm, hmsg w2 hm]
      · rcases hm : payload.getField "message" with _ | w2
        · simp [upstreamErrorMessage, hobj, he, hm, herr w he]
        · simp [upstreamErrorMessage, hobj, he, hm, herr w he, hmsg w2 hm]
    · simp at hobj
      simp [upstreamErrorMessage, hobj]

/-- Witness for `C3_upstream_error_envelope` at concrete inputs. -/
theorem C3_upstream_error_envelope_witness :
    (POST (some "u") (.ok (Json.obj [("message", Json.str "q")]))
      (.ok ⟨503, "application/json",
        some (Json.obj [("message", Json.str "busy")]), ""⟩)).1 =
      ⟨503, .obj [("error", upstreamErrorMessage
        (Json.obj [("message", Json.str "busy")]) 503)], none⟩ ∧
    upstreamErrorMessage (Json.obj [("message", Json.str "busy")]) 503 =
      Json.str "busy" :=
  ⟨C3_upstream_error_envelope.1 "u" rfl (Json.obj [("message", Json.str "q")])
      ⟨"q", none⟩ rfl ⟨503, "application/json",
        some (Json.obj [("message", Json.str "busy")]), ""⟩ rfl rfl
      (Json.obj [("message", Json.str "busy")]) rfl,
   C3_upstream_error_envelope.2.2.1 (Json.obj [("message", Json.str "busy")]) 503
      (Json.str "busy") (fun _ hw => Option.noConfusion hw) rfl rfl⟩

/-! ## C4 — timeout / cancellation race -/

/-- C4: the caller's signal and the fixed 20 s timeout are composed by
`AbortSignal.any` into a signal firing at the earliest of the two; whenever
that composite fires strictly before the upstream responds, the single
in-flight fetch is aborted (it rejects with `AbortError` or `TimeoutError`)
and the relay answers exactly `{ error: "Upstream request timed out" }` with
HTTP 504. -/
theorem C4_timeout_race (u : String) (hu : (u == "") = false) (data : Json)
    (r : ChatRequest) (hp : chatRequestSchema_safeParse data = .ok r)
    (clientAbort : Option Nat) (respTime : Nat) (resp : UpstreamResp) (t : Nat)
    (ht : anySignalFire clientAbort (some timeoutMs) = some t)
    (hfire : t < respTime) :
    (∃ e : JsError,
      fetchWithSignals clientAbort respTime resp = .error e ∧
      (e.name = "AbortError" ∨ e.name = "TimeoutError")) ∧
    (POST (some u) (.ok data) (fetchWithSignals clientAbort respTime resp)).1 =
      ⟨504, .obj [("error", .str "Upstream request timed out")], none⟩ := by
  have hfetch : ∃ e : JsError,
      fetchWithSignals clientAbort respTime resp = .error e ∧
      (e.name = "AbortError" ∨ e.name = "TimeoutError") := by
    cases clientAbort with
    | none =>
      have htt : timeoutMs < respTime := by
        have h2 : timeoutMs = t := by simpa [anySignalFire] using ht
        omega
      exact ⟨⟨"TimeoutError", "The operation was aborted"⟩,
        by simp [fetchWithSignals, anySignalFire, htt], Or.inr rfl⟩
    | some c =>
      have htt : min c timeoutMs < respTime := by
        have h2 : min c timeoutMs = t := by simpa [anySignalFire] using ht
        omega
      by_cases hc : c ≤ timeoutMs
      · exact ⟨⟨"AbortError", "The operation was aborted"⟩,
          by simp [fetchWithSignals, anySignalFire, htt, hc]; omega, Or.inl rfl⟩
      · exact ⟨⟨"TimeoutError", "The operation was aborted"⟩,
          by simp [fetchWithSignals, anySignalFire, htt, hc], Or.inr rfl⟩
  refine ⟨hfetch, ?_⟩
  obtain ⟨e, he, hname⟩ := hfetch
  rw [POST_parsed u hu data r hp, he]
  rcases hname with h | h <;> simp [handleUpstream, catchHandler, h]

/-- Witness for `C4_timeout_race`: client never aborts, upstream takes longer
than the 20 s timeout, so the timer fires at 20000 ms. -/
theorem C4_timeout_race_witness :
    (∃ e : JsError,
      fetchWithSignals none 25000 ⟨200, "application/json", none, ""⟩ =
        .error e ∧
      (e.name = "AbortError" ∨ e.name = "TimeoutError")) ∧
    (POST (some "u") (.ok (Json.obj [("message", Json.str "q")]))
      (fetchWithSignals none 25000 ⟨200, "application/json", none, ""⟩)).1 =
      ⟨504, .obj [("error", .str "Upstream request timed out")], none⟩ :=
  C4_timeout_race "u" rfl (Json.obj [("message", Json.str "q")]) ⟨"q", none⟩ rfl
    none 25000 ⟨200, "application/json", none, ""⟩ timeoutMs rfl (by decide)

/-! ## C7 — no network I/O before config check and validation -/

/-- C7: no outbound call is ever made while `API_URL` is unconfigured or before
validation succeeds: a falsy `API_URL` answers 500 with an empty network
trace; a body whose `req.json()` rejects issues no call; and a body failing
`chatRequestSchema` answers 400 with an empty network trace. -/
theorem C7_no_io_before_checks (apiUrl : Option String)
    (rq : Except JsError Json) (f : Except JsError UpstreamResp) :
    (envTruthy apiUrl = false →
      (POST apiUrl rq f).1.status = 500 ∧ (POST apiUrl rq f).2 = []) ∧
    (∀ e : JsError, rq = .error e → (POST apiUrl rq f).2 = []) ∧
    (∀ data issues, envTruthy apiUrl = true → rq = .ok data →
      chatRequestSchema_safeParse data = .error issues →
      (POST apiUrl rq f).1.status = 400 ∧ (POST apiUrl rq f).2 = []) := by
  refine ⟨fun h => by simp [POST, h], ?_, ?_⟩
  · intro e he
    subst he
    by_cases h : envTruthy apiUrl <;> simp [POST, h]
  · intro data issues henv hrq hp
    subst hrq
    simp [POST, henv, hp]

/-- Witness for `C7_no_io_before_checks`: a missing `API_URL`, a rejecting
`req.json()`, and a body whose `message` field is absent. -/
theorem C7_no_io_before_checks_witness :
    ((POST none (.ok (Json.obj [("message", Json.str "q")]))
        (.error ⟨"TypeError", "fetch failed"⟩)).1.status = 500 ∧
      (POST none (.ok (Json.obj [("message", Json.str "q")]))
        (.error ⟨"TypeError", "fetch failed"⟩)).2 = []) ∧
    ((POST (some "u") (.error ⟨"SyntaxError", "Unexpected end of JSON input"⟩)
        (.ok ⟨200, "application/json", none, ""⟩)).2 = []) ∧
    ((POST (some "u") (.ok (Json.obj [("note", Json.str "no message key")]))
        (.ok ⟨200, "application/json", none, ""⟩)).1.status = 400 ∧
      (POST (some "u") (.ok (Json.obj [("note", Json.str "no message key")]))
        (.ok ⟨200, "application/json", none, ""⟩)).2 = []) :=
  ⟨(C7_no_io_before_checks none (.ok (Json.obj [("message", Json.str "q")]))
      (.error ⟨"TypeError", "fetch failed"⟩)).1 rfl,
   (C7_no_io_before_checks (some "u")
      (.error ⟨"SyntaxError", "Unexpected end of JSON input"⟩)
      (.ok ⟨200, "application/json", none, ""⟩)).2.1
      ⟨"SyntaxError", "Unexpected end of JSON input"⟩ rfl,
   (C7_no_io_before_checks (some "u")
      (.ok (Json.obj [("note", Json.str "no message key")]))
      (.ok ⟨200, "application/json", none, ""⟩)).2.2
      (Json.obj [("note", Json.str "no message key")])
      [⟨[.key "message"], "Required"⟩] rfl rfl rfl⟩

/-! ## C5 — 2xx JSON success path -/

/-- C5: a 2xx upstream JSON body of the exact `ChatResponse` shape
`{ reply: string, handled: boolean }` is re-validated and returned verbatim
with HTTP 200; a 2xx JSON body that fails `chatResponseSchema.parse` is
surfaced as an error (the thrown `ZodError` lands in the catch, answering the
500 envelope), never passed through silently; in particular upstream 200
`{ reply: "Paris", handled: true }` yields exactly that payload with 200. -/
theorem C5_success_passthrough :
    (∀ u, (u == "") = false → ∀ data r,
      chatRequestSchema_safeParse data = .ok r → ∀ res : UpstreamResp,
      res.isOk = true →
      strIncludes res.contentType "application/json" = true →
      ∀ rep b, res.jsonBody =
        some (Json.obj [("reply", Json.str rep), ("handled", Json.bool b)]) →
      (POST (some u) (.ok data) (.ok res)).1 =
        ⟨200, Json.obj [("reply", Json.str rep), ("handled", Json.bool b)],
         none⟩) ∧
    (∀ u, (u == "") = false → ∀ data r,
      chatRequestSchema_safeParse data = .ok r → ∀ res : UpstreamResp,
      res.isOk = true →
      strIncludes res.contentType "application/json" = true →
      ∀ payload, res.jsonBody = some payload →
      ∀ issues, chatResponseSchema_safeParse payload = .error issues →
      (POST (some u) (.ok data) (.ok res)).1 =
        ⟨500, .obj [("error", .str "[API_CHAT] Unexpected error"),
                    ("detail", .str (issuesRender issues))], none⟩) ∧
    ((POST (some "u") (.ok (Json.obj [("message", Json.str "capital?")]))
      (.ok ⟨200, "application/json",
        some (Json.obj [("reply", Json.str "Paris"), ("handled", Json.bool true)]),
        ""⟩)).1 =
      ⟨200, Json.obj [("reply", Json.str "Paris"), ("handled", Json.bool true)],
       none⟩) := by
  refine ⟨?_, ?_, rfl⟩
  · intro u hu data r hp res hok hct rep b hj
    rw [POST_parsed u hu data r hp]
    simp [handleUpstream, hct, hj, hok, chatResponseSchema_safeParse,
      Json.getField, List.lookup, combine, ChatResponse.toJson, Except.map]
  · intro u hu data r hp res hok hct payload hj issues hiss
    rw [POST_parsed u hu data r hp]
    simp [handleUpstream, hct, hj, hok, hiss, catchHandler]

/-- Witness for `C5_success_passthrough` at concrete inputs (both the verbatim
branch and the malformed-shape branch). -/
theorem C5_success_passthrough_witness :
    ((POST (some "u") (.ok (Json.obj [("message", Json.str "q")]))
      (.ok ⟨200, "application/json",
        some (Json.obj [("reply", Json.str "hello"), ("handled", Json.bool false)]),
        ""⟩)).1 =
      ⟨200, Json.obj [("reply", Json.str "hello"), ("handled", Json.bool false)],
       none⟩) ∧
    ((POST (some "u") (.ok (Json.obj [("message", Json.str "q")]))
      (.ok ⟨200, "application/json", some (Json.obj [("nonsense", Json.num 7)]),
        ""⟩)).1 =
      ⟨500, .obj [("error", .str "[API_CHAT] Unexpected error"),
                  ("detail", .str (issuesRender
                    [⟨[.key "reply"], "Required"⟩,
                     ⟨[.key "handled"], "Required"⟩]))], none⟩) :=
  ⟨C5_success_passthrough.1 "u" rfl (Json.obj [("message", Json.str "q")])
      ⟨"q", none⟩ rfl
      ⟨200, "application/json",
        some (Json.obj [("reply", Json.str "hello"), ("handled", Json.bool false)]),
        ""⟩ rfl rfl "hello" false rfl,
   C5_success_passthrough.2.1 "u" rfl (Json.obj [("message", Json.str "q")])
      ⟨"q", none⟩ rfl
      ⟨200, "application/json", some (Json.obj [("nonsense", Json.num 7)]), ""⟩
      rfl rfl (Json.obj [("nonsense", Json.num 7)]) rfl
      [⟨[.key "reply"], "Required"⟩, ⟨[.key "handled"], "Required"⟩] rfl⟩

/-! ## Validator lemmas (shared by the validator and round-trip claims) -/

theorem parseRole_toString (r : Role) (p : List PathItem) :
    parseRole (some (.str r.toString)) p = .ok r := by
  cases r <;> rfl

theorem parseContent_ok (s : String) (hs : (s == "") = false) (p : List PathItem) :
    parseContent (some (.str s)) p = .ok s := by
  simp [parseContent, hs]

theorem chatMessageSchemaParse_toJson (m : ChatMessage)
    (hc : (m.content == "") = false) (p : List PathItem) :
    chatMessageSchemaParse m.toJson p = .ok m := by
  cases m with
  | mk role content =>
    simp only [ChatMessage.toJson, chatMessageSchemaParse, Json.getField,
      List.lookup]
    simp [parseRole_toString, parseContent_ok content hc, combine, Except.map]

theorem parseHistoryItems_toJson (ms : List ChatMessage)
    (hc : ∀ m ∈ ms, (m.content == "") = false) (p : List PathItem) (i : Nat) :
    parseHistoryItems (ms.map ChatMessage.toJson) p i = .ok ms := by
  induction ms generalizing i with
  | nil => rfl
  | cons m rest ih =>
    have h1 := chatMessageSchemaParse_toJson m (hc m (by simp)) (p ++ [.index i])
    have h2 := ih (fun x hx => hc x (by simp [hx])) (i + 1)
    simp [parseHistoryItems, h1, h2, combine, Except.map]

/-- Validating the JSON encoding of a well-formed `ChatRequest` (every history
entry has non-empty content) succeeds and returns it unchanged. -/
theorem safeParse_toJson (r : ChatRequest)
    (hc : ∀ h, r.history = some h → ∀ m ∈ h, (m.content == "") = false) :
    chatRequestSchema_safeParse r.toJson = .ok r := by
  cases r with
  | mk msg hist =>
    cases hist with
    | none =>
      simp [ChatRequest.toJson, chatRequestSchema_safeParse, Json.getField,
        List.lookup, combine, Except.map]
    | some h =>
      have hh := parseHistoryItems_toJson h (hc h rfl) [.key "history"] 0
      simp [ChatRequest.toJson, chatRequestSchema_safeParse, Json.getField,
        List.lookup, combine, hh, Except.map]

/-- Every issue raised on the element at position `k` of a history array is
reported in the array's collected issue list. -/
theorem parseHistoryItems_error_mem (items : List Json) (p : List PathItem)
    (i0 k : Nat) (j : Json) (es : List Issue)
    (hget : items.get? k = some j)
    (herr : chatMessageSchemaParse j (p ++ [.index (i0 + k)]) = .error es) :
    ∃ E, parseHistoryItems items p i0 = .error E ∧ ∀ e ∈ es, e ∈ E := by
  induction items generalizing i0 k with
  | nil => simp at hget
  | cons hd tl ih =>
    cases k with
    | zero =>
      rw [List.get?_cons_zero, Option.some_inj] at hget
      subst hget
      rw [Nat.add_zero] at herr
      cases htl : parseHistoryItems tl p (i0 + 1) with
      | ok ms =>
        exact ⟨es, by simp [parseHistoryItems, herr, htl, combine, Except.map],
          fun e he => he⟩
      | error E2 =>
        exact ⟨es ++ E2, by simp [parseHistoryItems, herr, htl, combine, Except.map],
          fun e he => List.mem_append_left _ he⟩
    | succ k2 =>
      rw [List.get?_cons_succ] at hget
      have harith : i0 + (k2 + 1) = (i0 + 1) + k2 := by omega
      rw [harith] at herr
      obtain ⟨E, hE, hmem⟩ := ih (i0 + 1) k2 hget herr
      cases hhd : chatMessageSchemaParse hd (p ++ [.index i0]) with
      | ok m =>
        exact ⟨E, by simp [parseHistoryItems, hhd, hE, combine, Except.map], hmem⟩
      | error e1 =>
        exact ⟨e1 ++ E, by simp [parseHistoryItems, hhd, hE, combine, Except.map],
          fun e he => List.mem_append_right _ (hmem e he)⟩

/-- A request whose `history` array has a failing element at position `k`
fails validation, and every issue of that element is reported. -/
theorem safeParse_error_of_history_item (fields : List (String × Json))
    (m : String) (items : List Json) (k : Nat) (j : Json) (es : List Issue)
    (hm : List.lookup "message" fields = some (.str m))
    (hh : List.lookup "history" fields = some (.arr items))
    (hget : items.get? k = some j)
    (herr : chatMessageSchemaParse j [.key "history", .index k] = .error es) :
    ∃ E, chatRequestSchema_safeParse (.obj fields) = .error E ∧
      ∀ e ∈ es, e ∈ E := by
  have herr2 : chatMessageSchemaParse j
      (([PathItem.key "history"] : List PathItem) ++ [.index (0 + k)]) =
      .error es := by
    rw [Nat.zero_add]
    exact herr
  obtain ⟨E, hE, hmem⟩ :=
    parseHistoryItems_error_mem items [.key "history"] 0 k j es hget herr2
  refine ⟨E, ?_, hmem⟩
  simp [chatRequestSchema_safeParse, Json.getField, hm, hh, hE, combine, Except.map]

/-- A request object with no `message` key fails validation with an issue at
the `message` field. -/
theorem safeParse_missing_message (fields : List (String × Json))
    (hm : List.lookup "message" fields = none) :
    ∃ E, chatRequestSchema_safeParse (.obj fields) = .error E ∧
      Issue.mk [.key "message"] "Required" ∈ E := by
  rcases hh : List.lookup "history" fields with _ | v
  · exact ⟨[⟨[.key "message"], "Required"⟩],
      by simp [chatRequestSchema_safeParse, Json.getField, hm, hh, combine, Except.map],
      by simp⟩
  · rcases v with _ | b | n | s | items | fs
    case arr =>
      cases hp : parseHistoryItems items [.key "history"] 0 with
      | ok ms =>
        exact ⟨[⟨[.key "message"], "Required"⟩],
          by simp [chatRequestSchema_safeParse, Json.getField, hm, hh, hp,
            combine, Except.map], by simp⟩
      | error E2 =>
        exact ⟨[⟨[.key "message"], "Required"⟩] ++ E2,
          by simp [chatRequestSchema_safeParse, Json.getField, hm, hh, hp,
            combine, Except.map], by simp⟩
    all_goals
      exact ⟨[⟨[.key "message"], "Required"⟩, ⟨[.key "history"], "Expected array"⟩],
        by simp [chatRequestSchema_safeParse, Json.getField, hm, hh, combine, Except.map],
        by simp⟩

theorem map_error_inv {α β : Type} (f : α → β) (x : Except (List Issue) α)
    (E : List Issue) (h : Except.map f x = .error E) : x = .error E := by
  cases x with
  | ok a => simp [Except.map] at h
  | error e => simp [Except.map] at h; rw [h]

theorem combine_error_ne_nil {α β : Type} (a : Except (List Issue) α)
    (b : Except (List Issue) β) (E : List Issue)
    (ha : ∀ e, a = .error e → e ≠ [])
    (hb : ∀ e, b = .error e → e ≠ [])
    (h : combine a b = .error E) : E ≠ [] := by
  cases a with
  | ok x =>
    cases b with
    | ok y => simp [combine] at h
    | error e2 =>
      simp [combine] at h
      subst h
      exact hb e2 rfl
  | error e1 =>
    cases b with
    | ok y =>
      simp [combine] at h
      subst h
      exact ha e1 rfl
    | error e2 =>
      simp [combine] at h
      subst h
      intro hnil
      exact ha e1 rfl (List.append_eq_nil.mp hnil).1

theorem parseRole_error_ne_nil (j : Option Json) (p : List PathItem)
    (E : List Issue) (h : parseRole j p = .error E) : E ≠ [] := by
  intro hE
  subst hE
  unfold parseRole at h
  split at h <;> simp at h

theorem parseContent_error_ne_nil (j : Option Json) (p : List PathItem)
    (E : List Issue) (h : parseContent j p = .error E) : E ≠ [] := by
  intro hE
  subst hE
  unfold parseContent at h
  split at h <;> (try split at h) <;> simp at h

theorem chatMessageSchemaParse_error_ne_nil (j : Json) (p : List PathItem)
    (E : List Issue) (h : chatMessageSchemaParse j p = .error E) : E ≠ [] := by
  unfold chatMessageSchemaParse at h
  split at h
  · exact combine_error_ne_nil _ _ _
      (fun e he => parseRole_error_ne_nil _ _ _ he)
      (fun e he => parseContent_error_ne_nil _ _ _ he)
      (map_error_inv _ _ _ h)
  · intro hE
    subst hE
    simp at h

theorem parseHistoryItems_error_ne_nil (items : List Json) (p : List PathItem)
    (i : Nat) (E : List Issue) (h : parseHistoryItems items p i = .error E) :
    E ≠ [] := by
  induction items generalizing i E with
  | nil => simp [parseHistoryItems] at h
  | cons hd tl ih =>
    unfold parseHistoryItems at h
    exact combine_error_ne_nil _ _ _
      (fun e he => chatMessageSchemaParse_error_ne_nil _ _ _ he)
      (fun e he => ih _ _ he)
      (map_error_inv _ _ _ h)

theorem safeParse_error_ne_nil (j : Json) (E : List Issue)
    (h : chatRequestSchema_safeParse j = .error E) : E ≠ [] := by
  unfold chatRequestSchema_safeParse at h
  split at h
  · refine combine_error_ne_nil _ _ _ ?_ ?_ (map_error_inv _ _ _ h)
    · intro e he hE
      subst hE
      split at he <;> simp at he
    · intro e he
      split at he
      · simp at he
      · exact parseHistoryItems_error_ne_nil _ _ _ _ (map_error_inv _ _ _ he)
      · intro hE
        subst hE
        simp at he
  · intro hE
    subst hE
    simp at h

/-! ## C6 — validator contract -/

/-- C6: the validator is a total success/failure function (a failure always
carries at least one issue); it accepts every request with a string `message`
(in particular a non-empty one) and well-formed optional `history`; it rejects
a request missing `message`, a history entry with an invalid role, and a
history entry with empty content, each time reporting an issue whose path
references the offending field; and on rejection the route answers
`{ error: "Invalid request data", issues: [...] }` with HTTP 400. -/
theorem C6_validator_contract :
    (∀ j : Json, (∃ r, chatRequestSchema_safeParse j = .ok r) ∨
      (∃ E, chatRequestSchema_safeParse j = .error E ∧ E ≠ [])) ∧
    (∀ (m : String) (hist : Option (List ChatMessage)),
      (∀ h, hist = some h → ∀ msg ∈ h, (msg.content == "") = false) →
      chatRequestSchema_safeParse (ChatRequest.mk m hist).toJson =
        .ok ⟨m, hist⟩) ∧
    (∀ fields, List.lookup "message" fields = none →
      ∃ E, chatRequestSchema_safeParse (.obj fields) = .error E ∧
        Issue.mk [.key "message"] "Required" ∈ E) ∧
    (∀ fields m items k (bad c : String),
      List.lookup "message" fields = some (.str m) →
      List.lookup "history" fields = some (.arr items) →
      items.get? k = some (.obj [("role", .str bad), ("content", .str c)]) →
      bad ≠ "user" → bad ≠ "assistant" → bad ≠ "system" → (c == "") = false →
      ∃ E, chatRequestSchema_safeParse (.obj fields) = .error E ∧
        Issue.mk [.key "history", .index k, .key "role"] "Invalid enum value"
          ∈ E) ∧
    (∀ fields m items k (ro : Role),
      List.lookup "message" fields = some (.str m) →
      List.lookup "history" fields = some (.arr items) →
      items.get? k =
        some (.obj [("role", .str ro.toString), ("content", .str "")]) →
      ∃ E, chatRequestSchema_safeParse (.obj fields) = .error E ∧
        Issue.mk [.key "history", .index k, .key "content"]
          "Message cannot be empty" ∈ E) ∧
    (∀ apiUrl, envTruthy apiUrl = true → ∀ data issues f,
      chatRequestSchema_safeParse data = .error issues →
      POST apiUrl (.ok data) f =
        (⟨400, .obj [("error", .str "Invalid request data"),
                     ("issues", issuesToJson issues)], none⟩, [])) := by
  refine ⟨?_, ?_, ?_, ?_, ?_, ?_⟩
  · intro j
    cases h : chatRequestSchema_safeParse j with
    | ok r => exact Or.inl ⟨r, rfl⟩
    | error E => exact Or.inr ⟨E, rfl, safeParse_error_ne_nil j E h⟩
  · intro m hist hc
    exact safeParse_toJson ⟨m, hist⟩ hc
  · intro fields hm
    exact safeParse_missing_message fields hm
  · intro fields m items k bad c hm hh hget h1 h2 h3 hc
    have hrole : parseRole (some (.str bad))
        [.key "history", .index k, .key "role"] =
        .error [⟨[.key "history", .index k, .key "role"],
                 "Invalid enum value"⟩] := by
      simp [parseRole, h1, h2, h3]
    have hcont := parseContent_ok c hc [.key "history", .index k, .key "content"]
    have hmsg : chatMessageSchemaParse
        (.obj [("role", .str bad), ("content", .str c)])
        [.key "history", .index k] =
        .error [⟨[.key "history", .index k, .key "role"],
                 "Invalid enum value"⟩] := by
      simp [chatMessageSchemaParse, Json.getField, List.lookup, hrole, hcont,
        combine, Except.map]
    obtain ⟨E, hE, hmem⟩ :=
      safeParse_error_of_history_item fields m items k _ _ hm hh hget hmsg
    exact ⟨E, hE, hmem _ (by simp)⟩
  · intro fields m items k ro hm hh hget
    have hrole := parseRole_toString ro [.key "history", .index k, .key "role"]
    have hmsg : chatMessageSchemaParse
        (.obj [("role", .str ro.toString), ("content", .str "")])
        [.key "history", .index k] =
        .error [⟨[.key "history", .index k, .key "content"],
                 "Message cannot be empty"⟩] := by
      simp [chatMessageSchemaParse, Json.getField, List.lookup, hrole,
        parseContent, combine, Except.map]
    obtain ⟨E, hE, hmem⟩ :=
      safeParse_error_of_history_item fields m items k _ _ hm hh hget hmsg
    exact ⟨E, hE, hmem _ (by simp)⟩
  · intro apiUrl henv data issues f hp
    simp [POST, henv, hp]

/-- Witness for `C6_validator_contract` at concrete inputs: a non-object body,
a well-formed request, a body with no `message`, a history entry with role
`"boss"`, a history entry with empty content, and the 400 envelope. -/
theorem C6_validator_contract_witness :
    ((∃ r, chatRequestSchema_safeParse Json.null = .ok r) ∨
      (∃ E, chatRequestSchema_safeParse Json.null = .error E ∧ E ≠ [])) ∧
    chatRequestSchema_safeParse
        (ChatRequest.mk "hello" (some [⟨.user, "hi"⟩])).toJson =
      .ok ⟨"hello", some [⟨.user, "hi"⟩]⟩ ∧
    (∃ E, chatRequestSchema_safeParse
        (.obj [("note", Json.str "x")]) = .error E ∧
      Issue.mk [.key "message"] "Required" ∈ E) ∧
    (∃ E, chatRequestSchema_safeParse
        (.obj [("message", Json.str "hi"),
               ("history", Json.arr
                 [Json.obj [("role", Json.str "boss"),
                            ("content", Json.str "x")]])]) = .error E ∧
      Issue.mk [.key "history", .index 0, .key "role"] "Invalid enum value"
        ∈ E) ∧
    (∃ E, chatRequestSchema_safeParse
        (.obj [("message", Json.str "hi"),
               ("history", Json.arr
                 [Json.obj [("role", Json.str "user"),
                            ("content", Json.str "")]])]) = .error E ∧
      Issue.mk [.key "history", .index 0, .key "content"]
        "Message cannot be empty" ∈ E) ∧
    POST (some "u") (.ok Json.null) (.ok ⟨200, "application/json", none, ""⟩) =
      (⟨400, .obj [("error", .str "Invalid request data"),
                   ("issues", issuesToJson [⟨[], "Expected object"⟩])], none⟩,
       []) :=
  ⟨C6_validator_contract.1 Json.null,
   C6_validator_contract.2.1 "hello" (some [⟨.user, "hi"⟩])
     (by intro h hh msg hmsg
         rw [Option.some_inj] at hh
         subst hh
         simp at hmsg
         subst hmsg
         rfl),
   C6_validator_contract.2.2.1 [("note", Json.str "x")] rfl,
   C6_validator_contract.2.2.2.1
     [("message", Json.str "hi"),
      ("history", Json.arr [Json.obj [("role", Json.str "boss"),
                                      ("content", Json.str "x")]])]
     "hi" [Json.obj [("role", Json.str "boss"), ("content", Json.str "x")]]
     0 "boss" "x" rfl rfl rfl (by decide) (by decide) (by decide) rfl,
   C6_validator_contract.2.2.2.2.1
     [("message", Json.str "hi"),
      ("history", Json.arr [Json.obj [("role", Json.str "user"),
                                      ("content", Json.str "")]])]
     "hi" [Json.obj [("role", Json.str "user"), ("content", Json.str "")]]
     0 .user rfl rfl rfl,
   C6_validator_contract.2.2.2.2.2 (some "u") rfl Json.null
     [⟨[], "Expected object"⟩] (.ok ⟨200, "application/json", none, ""⟩) rfl⟩

/-! ## C8 — round trip of validated requests -/

/-- C8: validating a well-formed `ChatRequest` and forwarding the validated
value upstream preserves `message` and the `history` sequence exactly: the
parse returns the request unchanged (same message, same entries, same order),
and the body posted to `<base>/chat` is precisely its serialization, so an
echoed `ChatMessage` sequence round-trips without mutation or reordering. -/
theorem C8_round_trip (r : ChatRequest)
    (hc : ∀ h, r.history = some h → ∀ m ∈ h, (m.content == "") = false) :
    chatRequestSchema_safeParse r.toJson = .ok r ∧
    (∀ u, (u == "") = false → ∀ f,
      (POST (some u) (.ok r.toJson) f).2 = [⟨u ++ "/chat", r.toJson⟩]) := by
  have hp := safeParse_toJson r hc
  refine ⟨hp, fun u hu f => ?_⟩
  rw [POST_parsed u hu r.toJson r hp]

/-- Witness for `C8_round_trip`: a two-turn history round-trips unchanged. -/
theorem C8_round_trip_witness :
    chatRequestSchema_safeParse
        (ChatRequest.mk "next question"
          (some [⟨.user, "hi"⟩, ⟨.assistant, "hello"⟩])).toJson =
      .ok ⟨"next question", some [⟨.user, "hi"⟩, ⟨.assistant, "hello"⟩]⟩ ∧
    (∀ u, (u == "") = false → ∀ f,
      (POST (some u)
        (.ok (ChatRequest.mk "next question"
          (some [⟨.user, "hi"⟩, ⟨.assistant, "hello"⟩])).toJson) f).2 =
      [⟨u ++ "/chat",
        (ChatRequest.mk "next question"
          (some [⟨.user, "hi"⟩, ⟨.assistant, "hello"⟩])).toJson⟩]) :=
  C8_round_trip ⟨"next question", some [⟨.user, "hi"⟩, ⟨.assistant, "hello"⟩]⟩
    (by intro h hh m hm
        rw [Option.some_inj] at hh
        subst hh
        simp at hm
        rcases hm with rfl | rfl <;> rfl)

/-! ## C9 — conversation-state invariants of the ChatPanel -/

/-- C9: the conversation state is created on mount as the single system
message; in every reachable state that system message is still at the head;
sending only appends (the prior list is a prefix, the success path appends
the assistant reply); reset restores exactly the initial single-system-message
list (clearing error and input); and the `history` posted on a turn contains
no system-role message. -/
theorem C9_conversation_invariants :
    initState.messages = [⟨.system, "You are a helpful assistant."⟩] ∧
    (∀ s, Reachable s →
      s.messages.head? = some ⟨.system, "You are a helpful assistant."⟩) ∧
    (∀ s, ∃ tail, (sendMessageStart s).1.messages = s.messages ++ tail) ∧
    (∀ s reply, (sendMessageSuccess s reply).messages =
      s.messages ++ [⟨.assistant, reply⟩]) ∧
    (∀ s, (resetChat s).messages = initialMessages ∧
      (resetChat s).error = none ∧ (resetChat s).input = "") ∧
    (∀ s t h, (sendMessageStart s).2 = some (t, h) →
      ∀ m ∈ h, m.role ≠ .system) := by
  have head_append : ∀ (l l2 : List ChatMessage) (x : ChatMessage),
      l.head? = some x → (l ++ l2).head? = some x := by
    intro l l2 x h
    cases l with
    | nil => simp at h
    | cons a as => simpa using h
  refine ⟨rfl, ?_, ?_, fun s reply => rfl, fun s => ⟨rfl, rfl, rfl⟩, ?_⟩
  · intro s hs
    induction hs with
    | init => rfl
    | typing s v _ ih => exact ih
    | send s _ ih =>
      by_cases hcond : (jsTrim s.input == "" || s.loading) = true
      · simpa [sendMessageStart, hcond] using ih
      · simp only [sendMessageStart, hcond]
        simp only [Bool.false_eq_true, if_false]
        exact head_append _ _ _ ih
    | reply s r _ ih => exact head_append _ _ _ ih
    | fail s m _ ih => exact ih
    | reset s _ => rfl
  · intro s
    by_cases hcond : (jsTrim s.input == "" || s.loading) = true
    · exact ⟨[], by simp [sendMessageStart, hcond]⟩
    · exact ⟨[⟨.user, jsTrim s.input⟩], by simp [sendMessageStart, hcond]⟩
  · intro s t h hsome m hm
    by_cases hcond : (jsTrim s.input == "" || s.loading) = true
    · simp [sendMessageStart, hcond] at hsome
    · simp [sendMessageStart, hcond] at hsome
      obtain ⟨ht, hh⟩ := hsome
      subst hh
      have := (List.mem_filter.mp hm).2
      simpa using this

/-- Witness for `C9_conversation_invariants`: the invariant at the mount
state, and a concrete send from a state with a two-turn conversation whose
posted history is exactly the non-system messages. -/
theorem C9_conversation_invariants_witness :
    initState.messages.head? = some ⟨.system, "You are a helpful assistant."⟩ ∧
    ((sendMessageStart
        ({ messages := initialMessages ++ [⟨.user, "a"⟩, ⟨.assistant, "b"⟩],
           input := "next", loading := false, error := none } :
          ChatPanelState)).2 =
      some ("next", [⟨.user, "a"⟩, ⟨.assistant, "b"⟩]) ∧
     ∀ m ∈ ([⟨.user, "a"⟩, ⟨.assistant, "b"⟩] : List ChatMessage),
       m.role ≠ .system) :=
  ⟨C9_conversation_invariants.2.1 initState Reachable.init,
   rfl,
   C9_conversation_invariants.2.2.2.2.2
     ({ messages := initialMessages ++ [⟨.user, "a"⟩, ⟨.assistant, "b"⟩],
        input := "next", loading := false, error := none } : ChatPanelState)
     "next" [⟨.user, "a"⟩, ⟨.assistant, "b"⟩] rfl⟩

/-! ## C10 — unknown fields are stripped -/

/-- C10: successful validation strips unknown fields on both sides: the body
forwarded upstream is the serialization of the parsed value, whose top-level
keys are exactly `message` (plus `history` when present); and a 2xx JSON
upstream body that validates is returned as the serialization of the parsed
`ChatResponse`, whose keys are exactly `reply` and `handled`. -/
theorem C10_unknown_fields_stripped :
    (∀ fields r, chatRequestSchema_safeParse (.obj fields) = .ok r →
      (r.toJson.keys = ["message"] ∨ r.toJson.keys = ["message", "history"]) ∧
      ∀ u, (u == "") = false → ∀ f,
        (POST (some u) (.ok (.obj fields)) f).2 = [⟨u ++ "/chat", r.toJson⟩]) ∧
    (∀ payload cr, chatResponseSchema_safeParse payload = .ok cr →
      cr.toJson.keys = ["reply", "handled"]) ∧
    (∀ u, (u == "") = false → ∀ data r,
      chatRequestSchema_safeParse data = .ok r → ∀ res : UpstreamResp,
      res.isOk = true →
      strIncludes res.contentType "application/json" = true →
      ∀ payload, res.jsonBody = some payload →
      ∀ cr, chatResponseSchema_safeParse payload = .ok cr →
      (POST (some u) (.ok data) (.ok res)).1 = ⟨200, cr.toJson, none⟩) := by
  refine ⟨?_, ?_, ?_⟩
  · intro fields r hp
    refine ⟨?_, fun u hu f => by rw [POST_parsed u hu _ r hp]⟩
    cases r with
    | mk m hist =>
      cases hist with
      | none => left; rfl
      | some h => right; rfl
  · intro payload cr _
    rfl
  · intro u hu data r hp res hok hct payload hj cr hcr
    rw [POST_parsed u hu data r hp]
    simp [handleUpstream, hct, hj, hok, hcr]

/-- Witness for `C10_unknown_fields_stripped`: a request with an extra
`debug` field is forwarded as `{"message": "hi"}` only, and a 200 upstream
body with an extra `trace` field is returned as `{reply, handled}` only. -/
theorem C10_unknown_fields_stripped_witness :
    (((ChatRequest.mk "hi" none).toJson.keys = ["message"] ∨
      (ChatRequest.mk "hi" none).toJson.keys = ["message", "history"]) ∧
     (POST (some "u")
        (.ok (.obj [("message", Json.str "hi"), ("debug", Json.bool true)]))
        (.ok ⟨200, "application/json", none, ""⟩)).2 =
      [⟨"u" ++ "/chat", (ChatRequest.mk "hi" none).toJson⟩]) ∧
    (ChatResponse.mk "ok" true).toJson.keys = ["reply", "handled"] ∧
    (POST (some "u")
        (.ok (.obj [("message", Json.str "hi"), ("debug", Json.bool true)]))
        (.ok ⟨200, "application/json",
          some (.obj [("reply", Json.str "ok"), ("handled", Json.bool true),
                      ("trace", Json.str "x")]), ""⟩)).1 =
      ⟨200, (ChatResponse.mk "ok" true).toJson, none⟩ :=
  ⟨⟨(C10_unknown_fields_stripped.1
      [("message", Json.str "hi"), ("debug", Json.bool true)] ⟨"hi", none⟩
      rfl).1,
    (C10_unknown_fields_stripped.1
      [("message", Json.str "hi"), ("debug", Json.bool true)] ⟨"hi", none⟩
      rfl).2 "u" rfl (.ok ⟨200, "application/json", none, ""⟩)⟩,
   C10_unknown_fields_stripped.2.1
     (.obj [("reply", Json.str "ok"), ("handled", Json.bool true),
            ("trace", Json.str "x")]) ⟨"ok", true⟩ rfl,
   C10_unknown_fields_stripped.2.2 "u" rfl
     (.obj [("message", Json.str "hi"), ("debug", Json.bool true)])
     ⟨"hi", none⟩ rfl
     ⟨200, "application/json",
       some (.obj [("reply", Json.str "ok"), ("handled", Json.bool true),
                   ("trace", Json.str "x")]), ""⟩ rfl rfl
     (.obj [("reply", Json.str "ok"), ("handled", Json.bool true),
            ("trace", Json.str "x")]) rfl ⟨"ok", true⟩ rfl⟩

end ResumeChat
